import Mathlib

/-!
Shallow embedding of the download-agent orchestration core found in
`python_app/downloader.py` (classes `DownloadJobState` and
`AttachmentDownloader`), together with theorems settling the frozen claims
about it.

Conventions of the embedding:
* Python `asyncio` side effects (acknowledgements, task creation and
  cancellation, monitor notifications) are recorded as explicit effect lists
  returned next to the updated state.
* Machine integers are `Int`/`Nat`; Python floats in the retry-delay logic are
  `Rat` (all the constants involved are dyadic, so this is exact).
* A JSON field that Python reads with a fallible conversion is modelled as the
  outcome of that conversion (for example `Option Int` for `int(value)`), and
  Python truthiness of an optional string is made explicit.
* Filesystem paths are lists of components from the root; `pathString` renders
  them the way `str(Path)` does for absolute paths.
-/

namespace Downloader

/-- Transfer mode of a job: `url` (plain HTTP) or `token` (vendor SDK). -/
inductive Mode
  | url
  | token
deriving DecidableEq, Repr

/-- An absolute filesystem path as its list of components from the root. -/
abbrev FsPath := List String

/-- The `order` field of a file payload after `_normalize_file_payload`:
absent, present but not convertible to `int`, or an integer. -/
inductive OrderField
  | missing
  | nonInt
  | intVal (n : ℤ)
deriving DecidableEq, Repr

/-- A normalized file payload as kept in `DownloadJobState._file_payloads`. -/
structure FilePayload where
  order : OrderField
  name : Option String
  path : String
  size : Option ℤ
  downloadUrl : Option String
  token : Option String
  fieldId : Option String
  recordId : Option String
deriving DecidableEq, Repr

/-- State of one `asyncio.Future` waiter: `true` means `done()`. -/
abbrev WaiterDone := Bool

/-- The mutable per-connection job state (`DownloadJobState.__init__`).
`finalize_task = some false` models a scheduled, still-running finalize task,
`some true` a finished one, `none` no task; `tasks` holds the identifiers of
outstanding worker tasks; `semaphore` records the capacity of the
concurrency semaphore when one has been installed. -/
structure JobState where
  configured : Bool
  zip_after : Bool
  job_dir : Option FsPath
  job_id : Option String
  job_name : Option String
  total : ℤ
  completed : Bool
  concurrency : ℤ
  download_mode : Mode
  app_token : Option String
  table_id : Option String
  sdk_client : Bool
  completion_requested : Bool
  file_payloads : List (String × FilePayload)
  failed_file_keys : List String
  refresh_waiters : List (String × WaiterDone)
  refresh_cache : List (String × String)
  retried_failed_files_once : Bool
  semaphore : Option ℤ
  finalize_task : Option Bool
  tasks : List ℕ
deriving DecidableEq, Repr

/-- The `total` config field as seen through the Python expression reading the total field with fallback 0:
absent/falsy (treated as `0`), present but raising `ValueError`/`TypeError`,
or an integer. -/
inductive TotalField
  | absent
  | malformed
  | val (n : ℤ)
deriving DecidableEq, Repr

/-- The configuration payload of an `attachment_config` message, with each
field already run through the Python conversion that `configure` applies:
`concurrent` is the result of `int(value)` (`none` when that raises),
`zipAfterDownload` is the `bool(...)` truthiness, string fields are `none`
when the raw value is absent (`""` models a present falsy string). -/
structure ConfigData where
  concurrent : Option ℤ
  zipAfterDownload : Bool
  jobId : Option String
  zipName : Option String
  jobName : Option String
  total : TotalField
  downloadMode : Option String
  appToken : Option String
  tableId : Option String
deriving DecidableEq, Repr

/-- Environment a `configure` call runs in: the handler default concurrency,
`str(int(time.time()))` for job-id fallback, the output directory, the set of
directories that already exist (consulted by `_create_job_directory`), and the
outcome of `create_sdk_client` (an `Except` carrying the `RuntimeError`
message on failure). -/
structure ConfigureEnv where
  default_concurrency : ℤ
  nowId : String
  output_dir : FsPath
  existing_dirs : List FsPath
  sdk_result : Except String Unit
deriving Repr

/-- Observable side effects of `configure` (acks sent, directory creation,
monitor notifications, SDK-credential validation). -/
inductive ConfigEffect
  | sendAck (status : String) (message : String) (order : Option ℤ)
  | createdJobDir (p : FsPath)
  | monitorMode (mode : Mode)
  | createSdkClient (appToken : String)
  | registerActiveJob
  | monitorJobStarted (total : ℤ)
deriving DecidableEq, Repr

/-- Character-level model of `str.lower()`. -/
def strLower (s : String) : String :=
  String.mk (s.data.map Char.toLower)

/-- Character-level model of `str.strip()` (drop surrounding whitespace). -/
def strStrip (s : String) : String :=
  String.mk
    (((s.data.dropWhile Char.isWhitespace).reverse.dropWhile
      Char.isWhitespace).reverse)

/-- Python `a or b` for an optional string `a` whose empty value is falsy. -/
def orElseStr (a : Option String) (b : String) : String :=
  match a with
  | some s => if s = "" then b else s
  | none => b

/-- Character filter of `AttachmentDownloader._sanitize_component`. -/
def isAllowedComponentChar (c : Char) : Bool :=
  c.isAlphanum || c = '-' || c = '_'

/-- `AttachmentDownloader._sanitize_component`: keep alphanumerics, `-` and
`_`, then strip `-`/`_` from both ends. -/
def sanitizeComponent (s : String) : String :=
  let kept := s.data.filter isAllowedComponentChar
  let isStrip : Char → Bool := fun c => c = '-' || c = '_'
  let stripped := ((kept.dropWhile isStrip).reverse.dropWhile isStrip).reverse
  String.mk stripped

/-- `AttachmentDownloader._create_job_directory`: directory named after the
job, with a job-id (or timestamp) suffix when the name collides with an
existing directory. -/
def createJobDirectory (outputDir : FsPath) (existing : List FsPath)
    (nowId : String) (jobName : String) (jobId : Option String) : FsPath :=
  let baseName :=
    if jobName = "" then
      "download_" ++ (match jobId with | some j => j | none => "None")
    else jobName
  let target := outputDir ++ [baseName]
  if existing.contains target then
    let suffix :=
      match jobId with
      | some j => if j = "" then nowId else j
      | none => nowId
    outputDir ++ [baseName ++ "_" ++ suffix]
  else target

/-- `DownloadJobState._coerce_concurrency`: accept the parsed hint when it
lies in `[1, 50]`, otherwise return the fallback. `none` models a value on
which `int(...)` raised. -/
def coerceConcurrency (value : Option ℤ) (fallback : ℤ) : ℤ :=
  match value with
  | none => fallback
  | some parsed => if 1 ≤ parsed ∧ parsed ≤ 50 then parsed else fallback

/-- `DownloadJobState._configure_download_mode`: record the requested mode,
and for `token` mode validate credentials and build the SDK client, marking
the job unconfigured on failure. -/
def configureDownloadMode (env : ConfigureEnv) (st : JobState)
    (data : ConfigData) : JobState × List ConfigEffect :=
  let requestedRaw := orElseStr data.downloadMode "url"
  let requested := strLower requestedRaw
  let mode := if requested = "token" then Mode.token else Mode.url
  let st1 := { st with download_mode := mode }
  let effs := [ConfigEffect.monitorMode mode]
  if mode = Mode.url then (st1, effs)
  else
    let appToken := strStrip (match data.appToken with | some s => s | none => "")
    let tableId := strStrip (match data.tableId with | some s => s | none => "")
    if appToken = "" ∨ tableId = "" then
      ({ st1 with configured := false },
        effs ++ [ConfigEffect.sendAck "error"
          "app token or table id missing for authorization download mode." none])
    else
      match env.sdk_result with
      | Except.error msg =>
          ({ st1 with configured := false },
            effs ++ [ConfigEffect.createSdkClient appToken,
              ConfigEffect.sendAck "error" msg none])
      | Except.ok _ =>
          ({ st1 with
              sdk_client := true
              app_token := some appToken
              table_id := some tableId },
            effs ++ [ConfigEffect.createSdkClient appToken])

/-- The tail of `configure` after `_configure_download_mode` has run: bail
out when the mode step left the job unconfigured, otherwise install the
semaphore and concurrency (the coerced front-end hint in `token` mode, the
agent default in `url` mode), register the job, notify the monitor and send
the success ack. -/
def finishConfigure (dflt concurrent : ℤ) (st2 : JobState)
    (effs : List ConfigEffect) : Bool × JobState × List ConfigEffect :=
  if st2.configured = false then (false, st2, effs)
  else
    let st3 :=
      if st2.download_mode = Mode.token then
        { st2 with semaphore := some concurrent, concurrency := concurrent }
      else
        { st2 with semaphore := some dflt, concurrency := dflt }
    (true, st3,
      effs ++ [ConfigEffect.registerActiveJob,
        ConfigEffect.monitorJobStarted st3.total,
        ConfigEffect.sendAck "success" "server info" none])

/-- `DownloadJobState.configure`: returns the cached acceptance when already
configured; otherwise resets the mode fields, parses the payload (a malformed
`total` aborts with an error ack), creates the job directory, applies the
download mode, resolves the concurrency (front-end hint in `token` mode, the
agent default in `url` mode) and reports success. -/
def configure (env : ConfigureEnv) (st : JobState) (data : ConfigData) :
    Bool × JobState × List ConfigEffect :=
  if st.configured then (true, st, [])
  else
    let st0 := { st with
                 download_mode := Mode.url
                 app_token := none
                 table_id := none
                 sdk_client := false }
    match data.total with
    | TotalField.malformed =>
        (false, st0, [ConfigEffect.sendAck "error" "invalid config payload" none])
    | other =>
      let totalInt : ℤ := match other with | TotalField.val n => n | _ => 0
      let concurrent := coerceConcurrency data.concurrent env.default_concurrency
      let jobId := orElseStr data.jobId env.nowId
      let jobNameRaw := orElseStr data.zipName
        (orElseStr data.jobName ("download_" ++ jobId))
      let jobName :=
        let s := sanitizeComponent jobNameRaw
        if s = "" then "download_" ++ jobId else s
      let jobDir := createJobDirectory env.output_dir env.existing_dirs
        env.nowId jobName (some jobId)
      let st1 := { st0 with
                   semaphore := none
                   zip_after := data.zipAfterDownload
                   job_id := some jobId
                   job_name := some jobName
                   job_dir := some jobDir
                   total := max totalInt 0
                   configured := true }
      let modeRes := configureDownloadMode env st1 data
      finishConfigure env.default_concurrency concurrent modeRes.1
        (ConfigEffect.createdJobDir jobDir :: modeRes.2)

/-- The `Retry-After` header as `_parse_retry_after_seconds` sees it: absent
or falsy, present but not parseable as `float`, or a parsed number. -/
inductive RetryAfterField
  | absent
  | malformed
  | val (seconds : ℚ)
deriving DecidableEq, Repr

/-- `DownloadJobState._parse_retry_after_seconds`: `none` for a missing,
unparseable or non-positive value, the parsed seconds otherwise. -/
def parseRetryAfterSeconds : RetryAfterField → Option ℚ
  | RetryAfterField.absent => none
  | RetryAfterField.malformed => none
  | RetryAfterField.val s => if s > 0 then some s else none

/-- `DownloadJobState._calculate_retry_delay_seconds`: server-driven delay
capped at 30 seconds when `Retry-After` parses, exponential backoff
`min(0.5 * 2 ^ max(attempt - 1, 0), 5)` otherwise. -/
def calculateRetryDelaySeconds (attempt : ℤ) (retryAfter : RetryAfterField) : ℚ :=
  match parseRetryAfterSeconds retryAfter with
  | some headerDelay => min headerDelay 30
  | none => min ((1 / 2 : ℚ) * 2 ^ (max (attempt - 1) 0).toNat) 5

/-- `DownloadJobState._is_refreshable_download_status`: HTTP statuses that
look like link expiry and prompt a download-url refresh. -/
def isRefreshableDownloadStatus (status : ℕ) : Bool :=
  status = 400 || status = 401 || status = 403 || status = 404 || status = 410

/-- Python truthiness of an optional string (`None` and `""` are falsy). -/
def truthyStr : Option String → Bool
  | none => false
  | some s => s ≠ ""

/-- The waiter key `f-string order-N` built from a parsed ordinal (used by
`provide_download_url_refresh` and `_build_file_key`). -/
def orderKey (n : ℤ) : String := "order-" ++ toString n

/-- Lookup in an association-list model of a Python dict. -/
def lookupA (l : List (String × α)) (k : String) : Option α :=
  (l.find? (fun kv => kv.1 == k)).map (fun kv => kv.2)

/-- Assignment `d[k] = v` on an association-list model of a Python dict. -/
def setA (l : List (String × α)) (k : String) (v : α) : List (String × α) :=
  if l.any (fun kv => kv.1 == k) then
    l.map (fun kv => if kv.1 == k then (k, v) else kv)
  else l ++ [(k, v)]

/-- The waiter and answer-cache maps of the refresh sub-protocol
(`_download_url_refresh_waiters` / `_download_url_refresh_cache`); a waiter
mapped to `true` is already `done()`. -/
structure RefreshMaps where
  waiters : List (String × WaiterDone)
  cache : List (String × String)
deriving DecidableEq, Repr

/-- How a waiter future got resolved: `set_result` with a URL, or
`set_exception` with an error message. -/
inductive Resolution
  | resolvedUrl (url : String)
  | resolvedError (msg : String)
deriving DecidableEq, Repr

/-- An `attachment_refresh` payload: `order` is the outcome of `int(order)`
(`none` when that raises), `downloadUrl` and `error` keep Python truthiness
via `Option String` with `""` falsy. -/
structure RefreshPayload where
  order : Option ℤ
  downloadUrl : Option String
  error : Option String
deriving DecidableEq, Repr

/-- `DownloadJobState.provide_download_url_refresh`: ignore payloads whose
ordinal does not parse; resolve a pending waiter (error beats URL, an empty
URL resolves exceptionally); without a pending waiter, cache a URL-only
answer and drop everything else. Returns the updated maps and the resolution
applied to a waiter, if any. -/
def provideDownloadUrlRefresh (m : RefreshMaps) (p : RefreshPayload) :
    RefreshMaps × Option (String × Resolution) :=
  match p.order with
  | none => (m, none)
  | some parsedOrder =>
    let key := orderKey parsedOrder
    match lookupA m.waiters key with
    | some false =>
        let m1 := { m with waiters := setA m.waiters key true }
        if truthyStr p.error then
          (m1, some (key, Resolution.resolvedError (p.error.getD "")))
        else if truthyStr p.downloadUrl then
          (m1, some (key, Resolution.resolvedUrl (p.downloadUrl.getD "")))
        else
          (m1, some (key, Resolution.resolvedError "refresh download url is empty"))
    | _ =>
        if truthyStr p.downloadUrl && !truthyStr p.error then
          ({ m with cache := setA m.cache key (p.downloadUrl.getD "") }, none)
        else (m, none)

/-- `DownloadJobState.should_detach_on_disconnect`: only a configured,
not-yet-completed `token`-mode job with a live websocket reference keeps
running after a disconnect. -/
def shouldDetachOnDisconnect (st : JobState) (wsPresent : Bool) : Bool :=
  wsPresent && decide (st.download_mode = Mode.token) && st.configured
    && !st.completed

/-- Observable side effects of `DownloadJobState.shutdown`. -/
inductive ShutdownEffect
  | scheduledFinalize (aborted : Bool)
  | cancelledFinalize
  | cancelledWaiter (key : String)
  | cancelledTask (id : ℕ)
  | monitorJobFinished (aborted : Bool)
deriving DecidableEq, Repr

/-- `DownloadJobState.schedule_finalize`: keep an already-running finalize
task, otherwise create one (recording the `aborted` flag it will use). -/
def scheduleFinalize (st : JobState) (aborted : Bool) :
    JobState × List ShutdownEffect :=
  match st.finalize_task with
  | some false => (st, [])
  | _ => ({ st with finalize_task := some false },
      [ShutdownEffect.scheduledFinalize aborted])

/-- `DownloadJobState.shutdown`: on detach, make sure a finalize task is
running and leave workers alone; otherwise cancel a running finalize task.
Both branches then cancel every pending refresh waiter and clear the waiter
and answer caches; the non-detach branch finally cancels all outstanding
worker tasks and notifies the monitor that the job finished (aborted unless
it had completed). -/
def shutdown (st : JobState) (wsPresent : Bool) :
    JobState × List ShutdownEffect :=
  let detach := shouldDetachOnDisconnect st wsPresent
  let firstStage :=
    if detach then
      if st.finalize_task = none ∨ st.finalize_task = some true then
        scheduleFinalize st (!st.completion_requested)
      else (st, [])
    else
      match st.finalize_task with
      | some false => ({ st with finalize_task := none },
          [ShutdownEffect.cancelledFinalize])
      | _ => ({ st with finalize_task := none }, [])
  let st1 := firstStage.1
  let pendingWaiters := st1.refresh_waiters.filter (fun kv => kv.2 = false)
  let st2 := { st1 with refresh_waiters := [], refresh_cache := [] }
  let effs2 := firstStage.2
    ++ pendingWaiters.map (fun kv => ShutdownEffect.cancelledWaiter kv.1)
  if shouldDetachOnDisconnect st2 wsPresent then (st2, effs2)
  else if st2.tasks = [] then
    (st2, effs2 ++ [ShutdownEffect.monitorJobFinished (!st2.completed)])
  else
    let cancelled := st2.tasks
    let st3 := { st2 with tasks := [], sdk_client := false }
    (st3, effs2 ++ cancelled.map ShutdownEffect.cancelledTask
      ++ [ShutdownEffect.monitorJobFinished (!st2.completed)])

/-- Outcome of one download attempt inside `_process_single_download` as the
body of the `try` reports it: success, a `ValueError` (validation failure,
no retry), an `aiohttp.ClientResponseError` carrying the HTTP status and the
`Retry-After` header, or any other exception. -/
inductive AttemptOutcome
  | success
  | valueError (msg : String)
  | respError (status : ℕ) (retryAfter : RetryAfterField)
  | otherError (msg : String)
deriving DecidableEq, Repr

/-- `_format_download_exception` applied to a `ClientResponseError`; the
optional reason phrase is abstracted away. -/
def formatRespError (status : ℕ) : String := "HTTP " ++ toString status

/-- Events of the per-file retry loop that the claims talk about: an
iteration of the attempt loop started, a download-url refresh was requested
from the front-end, the worker slept for a backoff delay. -/
inductive LoopEv
  | started (attempt : ℤ)
  | refreshRequested (attempt : ℤ)
  | slept (attempt : ℤ) (delay : ℚ)
deriving DecidableEq, Repr

/-- Result of the attempt loop: final success flag, last recorded error, the
download URL in scope when the loop ended, and the event trace. -/
structure LoopResult where
  success : Bool
  lastError : Option String
  finalUrl : Option String
  trace : List LoopEv
deriving DecidableEq, Repr

/-- What one loop iteration decides: `break` out of the loop (`done`) or
`continue` into the next attempt (`again`, with the new last error, the URL
to use and the next refresh-oracle index). -/
inductive StepRes
  | done (success : Bool) (lastError : Option String) (url : Option String)
  | again (lastError : Option String) (url : Option String) (rc : ℕ)
deriving DecidableEq, Repr

/-- One iteration of `_process_single_download` after the download URL for
the attempt is settled: consult the attempt oracle and translate the `try` /
`except` ladder. `isLast` is `attempt == max_attempts`, `refreshOracle rc`
is the outcome of the next `request_download_url_refresh` call (`Except`
error = the exception it raised). Monitor and payload-cache bookkeeping,
which does not influence control flow, is not traced. -/
def downloadStepWithUrl (mode : Mode) (oracle : ℤ → AttemptOutcome)
    (refreshOracle : ℕ → Except String String) (attempt : ℤ) (isLast : Bool)
    (url : Option String) (rc : ℕ) (lastError : Option String) :
    StepRes × List LoopEv :=
  match oracle attempt with
  | AttemptOutcome.success => (StepRes.done true lastError url, [])
  | AttemptOutcome.valueError msg =>
      (StepRes.done false (some msg) url, [])
  | AttemptOutcome.respError status retryAfter =>
      if mode = Mode.url ∧ isRefreshableDownloadStatus status then
        match refreshOracle rc with
        | Except.ok newUrl =>
            (StepRes.again lastError (some newUrl) (rc + 1),
              [LoopEv.refreshRequested attempt])
        | Except.error msg =>
            if isLast then
              (StepRes.done false (some msg) url,
                [LoopEv.refreshRequested attempt])
            else
              (StepRes.again (some msg) url (rc + 1),
                [LoopEv.refreshRequested attempt,
                 LoopEv.slept attempt
                   (calculateRetryDelaySeconds attempt RetryAfterField.absent)])
      else
        let msg := formatRespError status
        if isLast then (StepRes.done false (some msg) url, [])
        else
          (StepRes.again (some msg) url rc,
            [LoopEv.slept attempt (calculateRetryDelaySeconds attempt retryAfter)])
  | AttemptOutcome.otherError msg =>
      if isLast then (StepRes.done false (some msg) url, [])
      else
        (StepRes.again (some msg) url rc,
          [LoopEv.slept attempt
            (calculateRetryDelaySeconds attempt RetryAfterField.absent)])

/-- One full iteration of the attempt loop, including the `url`-mode request
for a fresh link when no download URL is in scope (its failure lands in the
generic `except Exception` branch of the loop body). -/
def downloadStep (mode : Mode) (oracle : ℤ → AttemptOutcome)
    (refreshOracle : ℕ → Except String String) (attempt : ℤ) (isLast : Bool)
    (url : Option String) (rc : ℕ) (lastError : Option String) :
    StepRes × List LoopEv :=
  match mode, url with
  | Mode.url, none =>
      (match refreshOracle rc with
       | Except.ok newUrl =>
           let inner := downloadStepWithUrl mode oracle refreshOracle attempt
             isLast (some newUrl) (rc + 1) lastError
           (inner.1, LoopEv.refreshRequested attempt :: inner.2)
       | Except.error msg =>
           if isLast then
             (StepRes.done false (some msg) none,
               [LoopEv.refreshRequested attempt])
           else
             (StepRes.again (some msg) none (rc + 1),
               [LoopEv.refreshRequested attempt,
                LoopEv.slept attempt
                  (calculateRetryDelaySeconds attempt RetryAfterField.absent)]))
  | _, _ => downloadStepWithUrl mode oracle refreshOracle attempt isLast url
      rc lastError

/-- The bounded `for attempt in range(1, max_attempts + 1)` loop of
`_process_single_download`, driven by `downloadStep`; `remaining` is the
number of iterations still allowed. -/
def downloadLoop (mode : Mode) (oracle : ℤ → AttemptOutcome)
    (refreshOracle : ℕ → Except String String) (attempt : ℤ) (remaining : ℕ)
    (url : Option String) (rc : ℕ) (lastError : Option String) : LoopResult :=
  match remaining with
  | 0 => ⟨false, lastError, url, []⟩
  | r + 1 =>
    let step := downloadStep mode oracle refreshOracle attempt (r = 0) url rc
      lastError
    match step.1 with
    | StepRes.done s e u => ⟨s, e, u, LoopEv.started attempt :: step.2⟩
    | StepRes.again e u rc1 =>
      let rest := downloadLoop mode oracle refreshOracle (attempt + 1) r u rc1 e
      ⟨rest.success, rest.lastError, rest.finalUrl,
        LoopEv.started attempt :: (step.2 ++ rest.trace)⟩

/-- The attempt loop as `_process_single_download` enters it: attempt 1,
`max_attempts = 3`, no error recorded yet. -/
def processDownloadAttempts (mode : Mode) (oracle : ℤ → AttemptOutcome)
    (refreshOracle : ℕ → Except String String) (url0 : Option String) :
    LoopResult :=
  downloadLoop mode oracle refreshOracle 1 3 url0 0 none

/-- Number of loop iterations recorded in a trace. -/
def countStarted (trace : List LoopEv) : ℕ :=
  (trace.filter (fun ev => match ev with
    | LoopEv.started _ => true
    | _ => false)).length

/-- What `_download_file` decides to do from the response to a (possibly
ranged) GET, before any body is streamed. `finalizeFromPart` renames the
`.part` file to the destination and returns; `unlinkAndRetry` deletes the
`.part` file, resets the byte counter and re-issues the download from offset
zero; `truncateWrite` streams the body into the `.part` file opened with
mode `wb` (discarding any previous partial content, writing from offset
zero); `appendWrite` appends at the resume offset; `raiseForStatus` raises
`ClientResponseError` for the status. -/
inductive RangeOutcome
  | finalizeFromPart
  | unlinkAndRetry
  | truncateWrite
  | appendWrite
  | raiseForStatus (status : ℕ)
deriving DecidableEq, Repr

/-- The response dispatch of `AttachmentDownloader._download_file`
(lines handling 416 / `raise_for_status` / 206 / 200). `contentRangeStart`
and `contentRangeTotal` are the two components that `_parse_content_range`
extracted from the `Content-Range` header, and `resumeFrom` is the size of
the pre-existing `.part` file. -/
def handleRangeResponse (status : ℕ) (contentRangeStart : Option ℤ)
    (contentRangeTotal : Option ℤ) (resumeFrom : ℤ) : RangeOutcome :=
  if status = 416 ∧ resumeFrom > 0 then
    match contentRangeTotal with
    | some total =>
        if resumeFrom ≥ total then RangeOutcome.finalizeFromPart
        else RangeOutcome.unlinkAndRetry
    | none => RangeOutcome.unlinkAndRetry
  else if 400 ≤ status then RangeOutcome.raiseForStatus status
  else if resumeFrom > 0 ∧ status = 206 then
    if contentRangeStart = some resumeFrom then RangeOutcome.appendWrite
    else RangeOutcome.unlinkAndRetry
  else RangeOutcome.truncateWrite

/-- The claim phrase: the partial file is discarded and the transfer
restarted from offset zero (either by unlinking the temp file and retrying,
or by truncating it via write mode `wb`). -/
def discardsPartAndRestarts (o : RangeOutcome) : Prop :=
  o = RangeOutcome.unlinkAndRetry ∨ o = RangeOutcome.truncateWrite

/-- Websocket reference as the orchestrator sees it: missing (`None`),
present but with `closed` true, or open. -/
inductive WsConn
  | absent
  | closed
  | openConn
deriving DecidableEq, Repr

/-- Sort key of `get_failed_file_payloads`:
the pair (order is missing, order value or 0). A non-integer order
value (which in Python would make the mixed-type tuple comparison raise) is
keyed like `0`. -/
def payloadSortKey (p : FilePayload) : Bool × ℤ :=
  match p.order with
  | OrderField.missing => (true, 0)
  | OrderField.nonInt => (false, 0)
  | OrderField.intVal n => (false, n)

/-- Lexicographic comparison on the sort key, as a Bool relation for the
stable merge sort modelling Python list.sort. -/
def payloadSortLe (a b : FilePayload) : Bool :=
  let ka := payloadSortKey a
  let kb := payloadSortKey b
  (!ka.1 && kb.1) || (ka.1 == kb.1 && decide (ka.2 ≤ kb.2))

/-- `DownloadJobState.get_failed_file_payloads`: copy the remembered payload
of every failed key and sort by ordinal (absent ordinals last). -/
def getFailedFilePayloads (st : JobState) : List FilePayload :=
  let collected := st.failed_file_keys.filterMap
    (fun k => lookupA st.file_payloads k)
  collected.mergeSort payloadSortLe

/-- Observable effects of `retry_failed_files_via_frontend`: the ack that
announces the pass, and each payload handed to `enqueue_download` (which
spawns one worker per payload). -/
inductive RetryEffect
  | ack (status : String) (message : String) (order : Option ℤ)
  | enqueued (p : FilePayload)
deriving DecidableEq, Repr

/-- `DownloadJobState.retry_failed_files_via_frontend`: a single extra pass
over failed files, only in `url` mode, only once per job, only with an open
connection and some failed file whose ordinal is an integer; the retried
payloads are re-enqueued with their stale `downloadUrl` dropped. Returns the
number of retried files, the updated state and the effects. -/
def retryFailedFilesViaFrontend (st : JobState) (ws : WsConn) :
    ℕ × JobState × List RetryEffect :=
  if st.download_mode ≠ Mode.url then (0, st, [])
  else if st.retried_failed_files_once then (0, st, [])
  else if st.failed_file_keys = [] then (0, st, [])
  else if ws ≠ WsConn.openConn then (0, st, [])
  else
    let failedPayloads := getFailedFilePayloads st
    if failedPayloads = [] then (0, st, [])
    else
      let retryPayloads := failedPayloads.filterMap (fun p =>
        match p.order with
        | OrderField.intVal _ => some { p with downloadUrl := none }
        | _ => none)
      if retryPayloads = [] then (0, st, [])
      else
        let st1 := { st with retried_failed_files_once := true }
        (retryPayloads.length, st1,
          RetryEffect.ack "success"
            ("Retrying " ++ toString retryPayloads.length ++ " failed file(s)...")
            none
          :: retryPayloads.map RetryEffect.enqueued)

/-- Character-level split on a separator (kernel-reducible model of
`str.split`). -/
def splitCharsOn (sep : Char) : List Char → List (List Char)
  | [] => [[]]
  | c :: rest =>
    let r := splitCharsOn sep rest
    if c = sep then [] :: r
    else
      match r with
      | [] => [[c]]
      | h :: t => (c :: h) :: t

/-- Split a string into components at a separator character. -/
def strSplitOn (sep : Char) (s : String) : List String :=
  (splitCharsOn sep s.data).map String.mk

/-- Character-level string containment test: `a` starts `b`
(kernel-reducible model of `str.startswith`). -/
def leadsString (a b : String) : Bool :=
  a.data.isPrefixOf b.data

/-- Render an absolute component path the way `str(Path)` does. -/
def pathString (p : FsPath) : String :=
  "/" ++ String.intercalate "/" p

/-- Join `root_dir / Path(relative_path.replace(backslash, slash))`:
empty and `.` components vanish (pathlib normalization), `..` components are
kept for `resolve`, and a leading slash makes the relative part absolute,
replacing the root as Python `/` does. -/
def joinRelative (root : FsPath) (relative : String) : FsPath :=
  let slashed := String.mk (relative.data.map
    (fun c => if c = '\\' then '/' else c))
  let comps := (strSplitOn '/' slashed).filter (fun c => c ≠ "" && c ≠ ".")
  if slashed.data.head? = some '/' then comps else root ++ comps

/-- `Path.resolve()` on component lists (no symlinks in the model): process
`..` by dropping the previous component, staying at the root when there is
none. -/
def resolvePath (comps : FsPath) : FsPath :=
  comps.foldl (fun acc c => if c = ".." then acc.dropLast else acc ++ [c]) []

/-- The name component fallback: the final component of the file name
(split on slashes), or `unknown` when that is empty. -/
def safeFileName (fileName : String) : String :=
  let comps := (strSplitOn '/' fileName).filter (fun c => c ≠ "" && c ≠ ".")
  match comps.getLast? with
  | some c => c
  | none => "unknown"

/-- `Path.stem` and `Path.suffix` of a file name: split at the last dot when
it is neither leading nor trailing. -/
def stemAndSuffix (nm : String) : String × String :=
  let cs := nm.data
  let n := cs.length
  let dotIdxs := (List.range n).filter (fun i => cs.getD i ' ' = '.')
  match dotIdxs.getLast? with
  | some i =>
      if 0 < i ∧ i < n - 1 then
        (String.mk (cs.take i), String.mk (cs.drop i))
      else (nm, "")
  | none => (nm, "")

/-- `AttachmentDownloader._is_destination_occupied`: the destination itself
or its `.part` companion already exists. `fs` is the set of existing paths. -/
def isDestinationOccupied (fs : List FsPath) (dest : FsPath) : Bool :=
  fs.contains dest ||
    (match dest.getLast? with
     | some nm => fs.contains (dest.dropLast ++ [nm ++ ".part"])
     | none => false)

/-- The numbered-suffix search of `_ensure_unique_name`; the fuel only caps
the unbounded Python `while True`, and `2 * fs.length + 1` counters always
contain a free name because every occupied candidate consumes a distinct
entry of `fs`. -/
def ensureUniqueNameAux (fs : List FsPath) (parent : FsPath)
    (stem suffix : String) : ℕ → ℕ → FsPath
  | counter, 0 => parent ++ [stem ++ "_" ++ toString counter ++ suffix]
  | counter, fuel + 1 =>
    let candidate := parent ++ [stem ++ "_" ++ toString counter ++ suffix]
    if isDestinationOccupied fs candidate then
      ensureUniqueNameAux fs parent stem suffix (counter + 1) fuel
    else candidate

/-- `AttachmentDownloader._ensure_unique_name`: keep a free destination,
otherwise append `_1`, `_2`, ... before the suffix until a free name is
found. -/
def ensureUniqueName (fs : List FsPath) (dest : FsPath) : FsPath :=
  if isDestinationOccupied fs dest then
    match dest.getLast? with
    | none => dest
    | some nm =>
      let parts := stemAndSuffix nm
      ensureUniqueNameAux fs dest.dropLast parts.1 parts.2 1
        (2 * fs.length + 1)
  else dest

/-- `AttachmentDownloader._build_target_path`: join the job directory, the
relative path and the sanitized file name, resolve, and guard against
traversal with `str(tentative).startswith(str(root_dir))`; `none` models the
`ValueError` raised when the guard fails, otherwise the collision-free
destination is returned. -/
def buildTargetPath (rootDir : FsPath) (fs : List FsPath)
    (relativePath fileName : String) : Option FsPath :=
  let safeName := safeFileName fileName
  let tentative := resolvePath (joinRelative rootDir relativePath ++ [safeName])
  if leadsString (pathString rootDir) (pathString tentative) then
    some (ensureUniqueName fs tentative)
  else none

/-- Semantic containment: `p` lies inside the directory `root` (its first
components are exactly `root`). -/
def insideDir (root p : FsPath) : Bool :=
  p.take root.length == root

/-- Exception behaviour of the underlying `websocket.send` call: it returns,
raises `websockets.ConnectionClosed`, or raises some other `Exception`. -/
inductive SendOutcome
  | ok
  | connectionClosed
  | otherException (msg : String)
deriving DecidableEq, Repr

/-- The ack payload `_send_ack` serializes (`type` is the constant
`feishu_attachment_ack`; `extra` entries update the data dict). -/
structure AckPayload where
  status : String
  message : String
  order : Option ℤ
  extra : List (String × String)
deriving DecidableEq, Repr

/-- What a call to `_send_ack` does, as seen by its caller: skipped without
touching the socket, sent successfully, caught a `ConnectionClosed`, caught
some other exception, or propagated an exception (never produced). -/
inductive SendResult
  | notSent
  | sentOk (payload : AckPayload)
  | caughtClosed
  | caughtOther (msg : String)
  | raised (msg : String)
deriving DecidableEq, Repr

/-- `AttachmentDownloader._send_ack`: return silently for a missing or
closed websocket, otherwise send the payload and swallow both
`ConnectionClosed` and any other `Exception` from the send. -/
def sendAck (ws : WsConn) (sendOutcome : SendOutcome) (status message : String)
    (order : Option ℤ) (extra : List (String × String)) : SendResult :=
  match ws with
  | WsConn.absent => SendResult.notSent
  | WsConn.closed => SendResult.notSent
  | WsConn.openConn =>
    match sendOutcome with
    | SendOutcome.ok => SendResult.sentOk ⟨status, message, order, extra⟩
    | SendOutcome.connectionClosed => SendResult.caughtClosed
    | SendOutcome.otherException msg => SendResult.caughtOther msg

/-! Concrete fixtures used by witnesses and counterexamples. -/

/-- A job state that has already accepted a configuration (url mode). -/
def sampleConfiguredState : JobState :=
  { configured := true
    zip_after := false
    job_dir := some ["tmp", "out", "job"]
    job_id := some "j1"
    job_name := some "job"
    total := 2
    completed := false
    concurrency := 20
    download_mode := Mode.url
    app_token := none
    table_id := none
    sdk_client := false
    completion_requested := false
    file_payloads := []
    failed_file_keys := []
    refresh_waiters := []
    refresh_cache := []
    retried_failed_files_once := false
    semaphore := some 20
    finalize_task := none
    tasks := [] }

/-- A fresh, not yet configured job state. -/
def sampleFreshState : JobState :=
  { sampleConfiguredState with
    configured := false
    job_dir := none
    job_id := none
    job_name := none
    total := 0
    semaphore := none }

/-- A configured token-mode job mid-flight (one worker outstanding). -/
def sampleTokenState : JobState :=
  { sampleConfiguredState with
    download_mode := Mode.token
    app_token := some "app"
    table_id := some "tbl"
    sdk_client := true
    tasks := [0] }

/-- A configure environment with agent default concurrency 20. -/
def sampleTokenEnv : ConfigureEnv :=
  { default_concurrency := 20
    nowId := "1700"
    output_dir := ["tmp", "out"]
    existing_dirs := []
    sdk_result := Except.ok () }

/-- A token-mode config payload whose concurrency hint is 100. -/
def sampleTokenData : ConfigData :=
  { concurrent := some 100
    zipAfterDownload := false
    jobId := some "j1"
    zipName := none
    jobName := some "job"
    total := TotalField.val 2
    downloadMode := some "token"
    appToken := some "app"
    tableId := some "tbl" }

/-- An arbitrary config payload for the idempotence witness. -/
def sampleUrlData : ConfigData :=
  { sampleTokenData with
    concurrent := some 3
    downloadMode := some "url"
    appToken := none
    tableId := none }

/-! Theorems settling the claims. -/

/-- C1: once a job state is configured, any later `configure` call, with any
payload and in any environment, returns `true` immediately and is a complete
no-op: the state (job directory, job id, transfer mode, semaphore, total and
everything else) is unchanged and no effect — in particular no job-directory
creation and no SDK-credential validation — is produced. -/
theorem configure_second_call_noop (env : ConfigureEnv) (st : JobState)
    (data : ConfigData) (h : st.configured = true) :
    configure env st data = (true, st, []) := by
  simp [configure, h]

/-- Witness for `configure_second_call_noop` at a concrete configured state. -/
theorem configure_second_call_noop_witness :
    sampleConfiguredState.configured = true ∧
    configure sampleTokenEnv sampleConfiguredState sampleUrlData
      = (true, sampleConfiguredState, []) :=
  ⟨rfl, configure_second_call_noop sampleTokenEnv sampleConfiguredState
    sampleUrlData rfl⟩

/-- C4: for every attempt number `n ≥ 1`, the retry delay is
`min(retry_after, 30)` when the `Retry-After` header parses to a positive
number, and the capped exponential backoff `min(0.5 * 2 ^ (n - 1), 5)` when
the header is absent, unparseable, or non-positive. -/
theorem retry_delay_spec (n : ℤ) (ra : RetryAfterField) (h : 1 ≤ n) :
    (∀ q : ℚ, ra = RetryAfterField.val q → 0 < q →
      calculateRetryDelaySeconds n ra = min q 30) ∧
    ((ra = RetryAfterField.absent ∨ ra = RetryAfterField.malformed ∨
        ∃ q : ℚ, ra = RetryAfterField.val q ∧ q ≤ 0) →
      calculateRetryDelaySeconds n ra
        = min ((1 / 2 : ℚ) * 2 ^ (n - 1).toNat) 5) := by
  have hmax : (max (n - 1) 0).toNat = (n - 1).toNat := by omega
  constructor
  · rintro q rfl hq
    simp [calculateRetryDelaySeconds, parseRetryAfterSeconds, hq]
  · rintro (rfl | rfl | ⟨q, rfl, hq⟩)
    · simp [calculateRetryDelaySeconds, parseRetryAfterSeconds, hmax]
    · simp [calculateRetryDelaySeconds, parseRetryAfterSeconds, hmax]
    · simp [calculateRetryDelaySeconds, parseRetryAfterSeconds, hmax,
        not_lt.mpr hq]

/-- Witness for `retry_delay_spec`: second failure without a header sleeps
`min(0.5 * 2, 5) = 1` second. -/
theorem retry_delay_spec_witness :
    calculateRetryDelaySeconds 2 RetryAfterField.absent
      = min ((1 / 2 : ℚ) * 2 ^ ((2 : ℤ) - 1).toNat) 5 :=
  (retry_delay_spec 2 RetryAfterField.absent (by decide)).2 (Or.inl rfl)

/-- C5: resuming from a non-empty `.part` file, a `416` whose
`Content-Range` total is known and at most the resume offset finalizes the
partial file immediately; a `416` otherwise, a `200` answer to the range
request, and a `206` whose `Content-Range` start disagrees with the offset
each discard the partial data and restart the transfer from offset zero. -/
theorem resume_response_spec (status : ℕ) (crStart crTotal : Option ℤ)
    (resumeFrom : ℤ) (h : 0 < resumeFrom) :
    (∀ t, status = 416 → crTotal = some t → t ≤ resumeFrom →
      handleRangeResponse status crStart crTotal resumeFrom
        = RangeOutcome.finalizeFromPart) ∧
    (status = 416 → (crTotal = none ∨ ∃ t, crTotal = some t ∧ resumeFrom < t) →
      discardsPartAndRestarts (handleRangeResponse status crStart crTotal resumeFrom)) ∧
    (status = 200 →
      discardsPartAndRestarts (handleRangeResponse status crStart crTotal resumeFrom)) ∧
    (status = 206 → crStart ≠ some resumeFrom →
      discardsPartAndRestarts (handleRangeResponse status crStart crTotal resumeFrom)) := by
  refine ⟨?_, ?_, ?_, ?_⟩
  · rintro t rfl rfl ht
    simp [handleRangeResponse, h, ht]
  · rintro rfl (rfl | ⟨t, rfl, ht⟩)
    · simp [handleRangeResponse, h, discardsPartAndRestarts]
    · simp [handleRangeResponse, h, discardsPartAndRestarts, not_le.mpr ht]
  · rintro rfl
    simp [handleRangeResponse, h, discardsPartAndRestarts]
  · rintro rfl hne
    simp [handleRangeResponse, h, discardsPartAndRestarts, hne]

/-- Witness for `resume_response_spec`: a `416` at offset 5 with total 5
finalizes, and a `200` to a ranged request at offset 7 restarts from zero. -/
theorem resume_response_spec_witness :
    handleRangeResponse 416 none (some 5) 5 = RangeOutcome.finalizeFromPart ∧
    discardsPartAndRestarts (handleRangeResponse 200 none none 7) :=
  ⟨(resume_response_spec 416 none (some 5) 5 (by decide)).1 5 rfl rfl
      (by decide),
    (resume_response_spec 200 none none 7 (by decide)).2.2.1 rfl⟩

/-- C10: the acknowledgement sender never propagates an exception: it
returns without touching the socket when the websocket is missing or already
closed, and both `ConnectionClosed` and any other exception from the
underlying send are caught. -/
theorem send_ack_no_raise (ws : WsConn) (o : SendOutcome)
    (status message : String) (order : Option ℤ)
    (extra : List (String × String)) :
    (∀ m, sendAck ws o status message order extra ≠ SendResult.raised m) ∧
    ((ws = WsConn.absent ∨ ws = WsConn.closed) →
      sendAck ws o status message order extra = SendResult.notSent) := by
  cases ws <;> cases o <;> simp [sendAck]

/-- Witness for `send_ack_no_raise`: a closed websocket means no send. -/
theorem send_ack_no_raise_witness :
    sendAck WsConn.closed SendOutcome.ok "success" "done" none []
      = SendResult.notSent :=
  (send_ack_no_raise WsConn.closed SendOutcome.ok "success" "done" none []).2
    (Or.inr rfl)

/-- C7: the failed-file retry pass is a complete no-op — it returns 0,
leaves the state (including the once-per-job allowance) untouched and emits
no ack and no worker — whenever the failed set is empty, the mode is not
`url`, the pass already ran, or the connection is missing or closed. -/
theorem retry_pass_noop (st : JobState) (ws : WsConn)
    (h : st.failed_file_keys = [] ∨ st.download_mode ≠ Mode.url ∨
      st.retried_failed_files_once = true ∨ ws = WsConn.absent ∨
      ws = WsConn.closed) :
    retryFailedFilesViaFrontend st ws = (0, st, []) := by
  rcases h with h | h | h | h | h <;>
    simp [retryFailedFilesViaFrontend, h]

/-- Witness for `retry_pass_noop` at a state with no failed files. -/
theorem retry_pass_noop_witness :
    sampleConfiguredState.failed_file_keys = [] ∧
    retryFailedFilesViaFrontend sampleConfiguredState WsConn.openConn
      = (0, sampleConfiguredState, []) :=
  ⟨rfl, retry_pass_noop sampleConfiguredState WsConn.openConn (Or.inl rfl)⟩

/-- C9 (code bug): the traversal guard of `_build_target_path` is a plain
string prefix test, so the relative path `../job_evil` resolved against the
job directory `/tmp/out/job` passes the guard — its string form starts with
the job directory string — and the resolver returns a destination in the
sibling directory `/tmp/out/job_evil` instead of raising the validation
error the claim (and the function docstring) promise. -/
theorem build_target_path_escape_eval :
    buildTargetPath ["tmp", "out", "job"] [] "../job_evil" "a.txt"
      = some ["tmp", "out", "job_evil", "a.txt"] ∧
    insideDir ["tmp", "out", "job"] ["tmp", "out", "job_evil", "a.txt"]
      = false := by
  exact ⟨by decide, by decide⟩

/-- C6: a refresh payload whose ordinal does not parse is ignored entirely;
with a pending (not done) waiter under the ordinal key, the waiter is
resolved with the payload error as an exception, or with the new URL when no
error is present; without such a waiter, a payload carrying a URL and no
error is cached under the key and every other payload is dropped with no
state change. -/
theorem provide_refresh_spec (m : RefreshMaps) (p : RefreshPayload) :
    (p.order = none → provideDownloadUrlRefresh m p = (m, none)) ∧
    (∀ n : ℤ, p.order = some n →
      ((lookupA m.waiters (orderKey n) = some false →
        ((truthyStr p.error = true →
          (provideDownloadUrlRefresh m p).2
            = some (orderKey n, Resolution.resolvedError (p.error.getD ""))) ∧
         (truthyStr p.error = false → truthyStr p.downloadUrl = true →
          (provideDownloadUrlRefresh m p).2
            = some (orderKey n, Resolution.resolvedUrl (p.downloadUrl.getD ""))))) ∧
       (lookupA m.waiters (orderKey n) ≠ some false →
        ((truthyStr p.downloadUrl = true → truthyStr p.error = false →
          provideDownloadUrlRefresh m p
            = ({ m with
                  cache := setA m.cache (orderKey n) (p.downloadUrl.getD "") },
               none)) ∧
         ((truthyStr p.downloadUrl = false ∨ truthyStr p.error = true) →
          provideDownloadUrlRefresh m p = (m, none)))))) := by
  constructor
  · intro h
    simp [provideDownloadUrlRefresh, h]
  · intro n hn
    constructor
    · intro hw
      constructor
      · intro he
        simp [provideDownloadUrlRefresh, hn, hw, he]
      · intro he hu
        simp [provideDownloadUrlRefresh, hn, hw, he, hu]
    · intro hw
      have hsplit : lookupA m.waiters (orderKey n) = none ∨
          lookupA m.waiters (orderKey n) = some true := by
        cases hl : lookupA m.waiters (orderKey n) with
        | none => exact Or.inl rfl
        | some b =>
          cases b with
          | false => exact absurd hl hw
          | true => exact Or.inr rfl
      constructor
      · intro hu he
        rcases hsplit with hl | hl <;>
          simp [provideDownloadUrlRefresh, hn, hl, hu, he]
      · intro hor
        rcases hsplit with hl | hl <;> rcases hor with h1 | h1 <;>
          simp [provideDownloadUrlRefresh, hn, hl, h1]

/-- Witness for `provide_refresh_spec`: a pending waiter under `order-5` is
resolved with the freshly provided URL. -/
theorem provide_refresh_spec_witness :
    (provideDownloadUrlRefresh ⟨[("order-5", false)], []⟩
      ⟨some 5, some "http-new", none⟩).2
      = some (orderKey 5, Resolution.resolvedUrl "http-new") :=
  ((((provide_refresh_spec ⟨[("order-5", false)], []⟩
      ⟨some 5, some "http-new", none⟩).2 5 rfl).1 (by decide)).2 rfl (by decide))

/-- Non-detach shutdown characterization: when the detach condition fails,
`shutdown` cancels a running finalize task, every pending refresh waiter and
every outstanding worker, then reports the job finished. -/
theorem shutdown_no_detach_eq (st : JobState)
    (hd : ¬ ((st.download_mode = Mode.token ∧ st.configured = true)
      ∧ st.completed = false)) :
    (shutdown st true).2 =
      (if st.finalize_task = some false then [ShutdownEffect.cancelledFinalize]
        else [])
      ++ (st.refresh_waiters.filter (fun kv => kv.2 = false)).map
          (fun kv => ShutdownEffect.cancelledWaiter kv.1)
      ++ st.tasks.map ShutdownEffect.cancelledTask
      ++ [ShutdownEffect.monitorJobFinished (!st.completed)]
    ∧ (shutdown st true).1.tasks = [] := by
  by_cases ht : st.tasks = [] <;>
    cases hft : st.finalize_task with
    | none =>
        simp [shutdown, scheduleFinalize, shouldDetachOnDisconnect, hft, ht, hd]
    | some b =>
        cases b <;>
          simp [shutdown, scheduleFinalize, shouldDetachOnDisconnect, hft, ht, hd]

/-- C2: on shutdown after a disconnect (the websocket argument is present):
a configured, not-completed token-mode job is detached — its worker tasks
survive, no worker or finalize cancellation happens, and a finalize task is
left running; in url mode, or when the job is unconfigured, every
outstanding worker task is cancelled, a running finalize task is cancelled,
every pending refresh waiter is cancelled, and the monitor is told the job
finished, aborted unless it had already completed. -/
theorem shutdown_disconnect_spec (st : JobState) :
    (shouldDetachOnDisconnect st true = true →
      ((shutdown st true).1.tasks = st.tasks ∧
       (∀ id, ShutdownEffect.cancelledTask id ∉ (shutdown st true).2) ∧
       ShutdownEffect.cancelledFinalize ∉ (shutdown st true).2 ∧
       (shutdown st true).1.finalize_task = some false)) ∧
    ((st.download_mode = Mode.url ∨ st.configured = false) →
      ((∀ id ∈ st.tasks, ShutdownEffect.cancelledTask id ∈ (shutdown st true).2) ∧
       (st.finalize_task = some false →
         ShutdownEffect.cancelledFinalize ∈ (shutdown st true).2) ∧
       (∀ k, (k, false) ∈ st.refresh_waiters →
         ShutdownEffect.cancelledWaiter k ∈ (shutdown st true).2) ∧
       ShutdownEffect.monitorJobFinished (!st.completed) ∈ (shutdown st true).2 ∧
       (shutdown st true).1.tasks = [])) := by
  constructor
  · intro hd
    simp only [shouldDetachOnDisconnect, Bool.and_eq_true, decide_eq_true_eq,
      Bool.not_eq_true', true_and] at hd
    obtain ⟨⟨hmode, hconf⟩, hcomp⟩ := hd
    cases hft : st.finalize_task with
    | none =>
        simp [shutdown, scheduleFinalize, shouldDetachOnDisconnect, hmode,
          hconf, hcomp, hft]
    | some b =>
        cases b <;>
          simp [shutdown, scheduleFinalize, shouldDetachOnDisconnect, hmode,
            hconf, hcomp, hft]
  · intro hm
    have hcond : ¬ ((st.download_mode = Mode.token ∧ st.configured = true)
        ∧ st.completed = false) := by
      rcases hm with hm | hm <;> simp [hm]
    obtain ⟨heq, htasks⟩ := shutdown_no_detach_eq st hcond
    rw [heq, htasks]
    refine ⟨?_, ?_, ?_, ?_, rfl⟩
    · intro id hid
      simp [List.mem_append, List.mem_map]
      aesop
    · intro hft
      simp [List.mem_append, hft]
    · intro k hk
      simp [List.mem_append, List.mem_map, List.mem_filter]
      aesop
    · simp [List.mem_append]

/-- Witness for `shutdown_disconnect_spec`: a configured token-mode job with
one outstanding worker is detached with a finalize task left running, and a
url-mode job has its worker cancelled. -/
theorem shutdown_disconnect_spec_witness :
    shouldDetachOnDisconnect sampleTokenState true = true ∧
    (shutdown sampleTokenState true).1.tasks = sampleTokenState.tasks ∧
    (shutdown sampleTokenState true).1.finalize_task = some false :=
  ⟨by decide,
   ((shutdown_disconnect_spec sampleTokenState).1 (by decide)).1,
   ((shutdown_disconnect_spec sampleTokenState).1 (by decide)).2.2.2⟩

/-- The claim reading of the token-mode concurrency rule: the front-end hint
clamped into the interval [1, 50]. -/
def specClampedHint (hint : ℤ) : ℤ := max 1 (min hint 50)

/-- Modelled from the amended claim wording: the effective concurrency is
the hint when it parses as an integer inside [1, 50] in token mode, and the
agent default otherwise (always the default in url mode). -/
def specEffectiveConcurrency (mode : Mode) (hint : Option ℤ) (dflt : ℤ) : ℤ :=
  match mode with
  | Mode.token =>
    match hint with
    | some n => if 1 ≤ n ∧ n ≤ 50 then n else dflt
    | none => dflt
  | Mode.url => dflt

/-- Helper: the concurrency and mode a successful `finishConfigure` leaves
behind. -/
theorem finishConfigure_concurrency (dflt concurrent : ℤ) (st2 : JobState)
    (effs : List ConfigEffect)
    (h : (finishConfigure dflt concurrent st2 effs).1 = true) :
    (finishConfigure dflt concurrent st2 effs).2.1.concurrency
      = (if st2.download_mode = Mode.token then concurrent else dflt) ∧
    (finishConfigure dflt concurrent st2 effs).2.1.download_mode
      = st2.download_mode := by
  by_cases hc : st2.configured = false
  · simp [finishConfigure, hc] at h
  · by_cases hm : st2.download_mode = Mode.token <;>
      simp [finishConfigure, hc, hm]

/-- Helper: the mode-directed concurrency resolution of `configure` agrees
with the amended specification formula. -/
theorem resolve_matches_spec (m : Mode) (hint : Option ℤ) (dflt : ℤ) :
    (if m = Mode.token then coerceConcurrency hint dflt else dflt)
      = specEffectiveConcurrency m hint dflt := by
  cases m <;> cases hint <;>
    simp [specEffectiveConcurrency, coerceConcurrency]

/-- C8 counterexample: with agent default 20, a token-mode configuration
whose concurrency hint is 100 is accepted with effective concurrency 20 —
the fallback default — while clamping the hint into [1, 50] would give 50,
so the per-job concurrency is not the hint clamped to [1, 50]. -/
theorem token_concurrency_not_clamped :
    (configure sampleTokenEnv sampleFreshState sampleTokenData).1 = true ∧
    (configure sampleTokenEnv sampleFreshState sampleTokenData).2.1.download_mode
      = Mode.token ∧
    (configure sampleTokenEnv sampleFreshState sampleTokenData).2.1.concurrency
      = 20 ∧
    specClampedHint 100 = 50 := by
  exact ⟨by decide, by decide, by decide, by decide⟩

/-- C8 (amended): for every configuration accepted by `configure`, the
effective per-job concurrency is, in token mode, the front-end hint when it
parses as an integer within [1, 50] and the agent default concurrency
otherwise; in url mode it is always the agent default, regardless of the
hint. -/
theorem effective_concurrency_spec (env : ConfigureEnv) (st : JobState)
    (data : ConfigData) (h1 : st.configured = false)
    (h2 : (configure env st data).1 = true) :
    (configure env st data).2.1.concurrency
      = specEffectiveConcurrency (configure env st data).2.1.download_mode
          data.concurrent env.default_concurrency := by
  cases htot : data.total with
  | malformed =>
      simp only [configure, h1, htot, Bool.false_eq_true, if_false] at h2
  | absent =>
      simp only [configure, h1, htot, Bool.false_eq_true, if_false] at h2 ⊢
      obtain ⟨hcon, hmode⟩ := finishConfigure_concurrency _ _ _ _ h2
      rw [hcon, hmode]
      exact resolve_matches_spec _ _ _
  | val n =>
      simp only [configure, h1, htot, Bool.false_eq_true, if_false] at h2 ⊢
      obtain ⟨hcon, hmode⟩ := finishConfigure_concurrency _ _ _ _ h2
      rw [hcon, hmode]
      exact resolve_matches_spec _ _ _

/-- Witness for `effective_concurrency_spec` at the concrete token payload
with hint 100 and default 20. -/
theorem effective_concurrency_spec_witness :
    (configure sampleTokenEnv sampleFreshState sampleTokenData).2.1.concurrency
      = specEffectiveConcurrency
          (configure sampleTokenEnv sampleFreshState sampleTokenData).2.1.download_mode
          sampleTokenData.concurrent sampleTokenEnv.default_concurrency :=
  effective_concurrency_spec sampleTokenEnv sampleFreshState sampleTokenData
    (by decide) (by decide)

/-- Counting loop iterations distributes over trace concatenation. -/
theorem countStarted_append (a b : List LoopEv) :
    countStarted (a ++ b) = countStarted a + countStarted b := by
  simp [countStarted, List.filter_append]

/-- A step of the attempt loop records no `started` event of its own. -/
theorem countStarted_stepWithUrl (mode : Mode) (oracle : ℤ → AttemptOutcome)
    (refreshOracle : ℕ → Except String String) (attempt : ℤ) (isLast : Bool)
    (url : Option String) (rc : ℕ) (lastError : Option String) :
    countStarted (downloadStepWithUrl mode oracle refreshOracle attempt isLast
      url rc lastError).2 = 0 := by
  unfold downloadStepWithUrl
  cases oracle attempt <;> (repeat' split) <;> simp [countStarted]

/-- Prepending a `started` event raises the iteration count by one. -/
theorem countStarted_cons_started (a : ℤ) (l : List LoopEv) :
    countStarted (LoopEv.started a :: l) = countStarted l + 1 := by
  simp [countStarted, List.filter_cons]

/-- Prepending a refresh-request event does not change the iteration count. -/
theorem countStarted_cons_refresh (a : ℤ) (l : List LoopEv) :
    countStarted (LoopEv.refreshRequested a :: l) = countStarted l := by
  simp [countStarted, List.filter_cons]

/-- A full iteration body records no `started` event of its own. -/
theorem countStarted_step (mode : Mode) (oracle : ℤ → AttemptOutcome)
    (refreshOracle : ℕ → Except String String) (attempt : ℤ) (isLast : Bool)
    (url : Option String) (rc : ℕ) (lastError : Option String) :
    countStarted (downloadStep mode oracle refreshOracle attempt isLast
      url rc lastError).2 = 0 := by
  cases mode with
  | token =>
      cases url <;>
        exact countStarted_stepWithUrl Mode.token oracle refreshOracle attempt
          isLast _ rc lastError
  | url =>
      cases url with
      | some u =>
          exact countStarted_stepWithUrl Mode.url oracle refreshOracle attempt
            isLast (some u) rc lastError
      | none =>
          unfold downloadStep
          cases hr : refreshOracle rc with
          | ok u =>
              have h0 := countStarted_stepWithUrl Mode.url oracle refreshOracle
                attempt isLast (some u) (rc + 1) lastError
              simpa [countStarted_cons_refresh] using h0
          | error m =>
              cases isLast <;> simp [countStarted]

/-- The attempt loop runs at most `remaining` iterations. -/
theorem countStarted_loop (mode : Mode) (oracle : ℤ → AttemptOutcome)
    (refreshOracle : ℕ → Except String String) (attempt : ℤ) (remaining : ℕ)
    (url : Option String) (rc : ℕ) (lastError : Option String) :
    countStarted (downloadLoop mode oracle refreshOracle attempt remaining url
      rc lastError).trace ≤ remaining := by
  induction remaining generalizing attempt url rc lastError with
  | zero => simp [downloadLoop, countStarted]
  | succ r ih =>
      have h0 := countStarted_step mode oracle refreshOracle attempt (r = 0)
        url rc lastError
      unfold downloadLoop
      cases hs : (downloadStep mode oracle refreshOracle attempt (r = 0) url rc
        lastError).1 with
      | done s e u =>
          simp only [hs, countStarted_cons_started, h0]
          omega
      | again e u rc1 =>
          have h1 := ih (attempt + 1) u rc1 e
          simp only [hs, countStarted_cons_started, countStarted_append, h0, h1]
          omega

/-- C3: in url mode, when an attempt fails with an HTTP response-status
error, the loop body requests a download-url refresh exactly when the status
is one of 400/401/403/404/410; any other status produces no refresh request
and (before the last attempt) exactly a backoff sleep of
`_calculate_retry_delay_seconds(attempt, retry_after)`; and the attempt loop
never runs more than the cap of 3 attempts per file, whatever outcomes and
refresh answers occur. -/
theorem url_refresh_retry_policy (oracle : ℤ → AttemptOutcome)
    (refreshOracle : ℕ → Except String String) :
    (∀ (a : ℤ) (last : Bool) (u : String) (rc : ℕ) (le : Option String)
        (s : ℕ) (ra : RetryAfterField),
      oracle a = AttemptOutcome.respError s ra →
      ((isRefreshableDownloadStatus s = true →
         LoopEv.refreshRequested a ∈
           (downloadStepWithUrl Mode.url oracle refreshOracle a last (some u)
             rc le).2) ∧
       (isRefreshableDownloadStatus s = false →
         LoopEv.refreshRequested a ∉
           (downloadStepWithUrl Mode.url oracle refreshOracle a last (some u)
             rc le).2 ∧
         (last = false →
           (downloadStepWithUrl Mode.url oracle refreshOracle a last (some u)
             rc le).2
             = [LoopEv.slept a (calculateRetryDelaySeconds a ra)])))) ∧
    (∀ (mode : Mode) (url0 : Option String),
      countStarted (processDownloadAttempts mode oracle refreshOracle
        url0).trace ≤ 3) := by
  constructor
  · intro a last u rc le s ra h
    constructor
    · intro hr
      simp only [downloadStepWithUrl, h, hr, and_true]
      cases refreshOracle rc <;> cases last <;> simp
    · intro hr
      simp only [downloadStepWithUrl, h, hr, Bool.false_eq_true, and_false,
        if_false]
      cases last <;> simp
  · intro mode url0
    exact countStarted_loop mode oracle refreshOracle 1 3 url0 0 none

/-- Oracle for the C3 witness: the first attempt fails with HTTP 403, later
attempts succeed. -/
def c3Oracle : ℤ → AttemptOutcome := fun a =>
  if a = 1 then AttemptOutcome.respError 403 RetryAfterField.absent
  else AttemptOutcome.success

/-- Refresh oracle for the C3 witness: the front-end always answers with a
fresh link. -/
def c3Refresh : ℕ → Except String String := fun _ => Except.ok "url-2"

/-- Witness for `url_refresh_retry_policy`: a 403 on the first attempt
requests a refresh, and the whole loop stays within 3 attempts. -/
theorem url_refresh_retry_policy_witness :
    LoopEv.refreshRequested 1 ∈
      (downloadStepWithUrl Mode.url c3Oracle c3Refresh 1 false (some "url-1")
        0 none).2 ∧
    countStarted (processDownloadAttempts Mode.url c3Oracle c3Refresh
      (some "url-1")).trace ≤ 3 :=
  ⟨((url_refresh_retry_policy c3Oracle c3Refresh).1 1 false "url-1" 0 none 403
      RetryAfterField.absent (by decide)).1 (by decide),
   (url_refresh_retry_policy c3Oracle c3Refresh).2 Mode.url (some "url-1")⟩

end Downloader
